import Mathlib

/-!
Verification of the ggsql writer module (`src/writer/mod.rs`): the `Writer`
trait with its default `render`, together with the data model (`Plot`,
`DataFrame`, `Prepared`) and the exemplar chart-grammar JSON backend, which
are described at design level in the specification (the `vegalite` module is
feature-gated and its source is not part of this tree, so it is modelled
from the spec).
-/

namespace Ggsql

/-- Modelled from the spec: declared column type of a `DataFrame` column
(the data layer's types are opaque to the writer; the writer only checks
that the declared type is representable in the target encoding).  `blob`
stands for a type the chart grammar cannot represent. -/
inductive ColType where
  | int
  | str
  | bool
  | blob
deriving DecidableEq

/-- Modelled from the spec: a typed cell value of a tabular dataset. -/
inductive Value where
  | int (i : Int)
  | str (s : String)
  | bool (b : Bool)
deriving DecidableEq

/-- Modelled from the spec: one named, typed column of a `DataFrame`. -/
structure Column where
  name : String
  ctype : ColType
  values : List Value
deriving DecidableEq

/-- Modelled from the spec: `DataFrame`, an immutable named, typed tabular
dataset — an ordered set of named, typed columns. -/
structure DataFrame where
  columns : List Column
deriving DecidableEq

/-- Row count of a frame (all columns share the same row count by the data
model's invariant; the first column is representative). -/
def DataFrame.rowCount (f : DataFrame) : Nat :=
  match f.columns with
  | [] => 0
  | c :: _ => c.values.length

/-- Modelled from the spec: one layer of a `Plot` — a geometry/mark kind, a
data-source reference, and an aesthetic mapping from visual channel to
column name. -/
structure Layer where
  mark : String
  source : String
  mapping : List (String × String)
deriving DecidableEq

/-- Modelled from the spec: `Plot`, a fully-resolved visualization grammar —
an ordered sequence of layers. -/
structure Plot where
  layers : List Layer
deriving DecidableEq

/-- A map of data source names to DataFrames (`HashMap<String, DataFrame>`
in the source), embedded as an association list with `List.lookup`. -/
abbrev DataMap := List (String × DataFrame)

/-- Modelled from the spec: `Prepared`, an immutable bundle of one `Plot`
and its supporting data map, with read-only accessors `plot()` and
`data_map()` (here the structure fields). -/
structure Prepared where
  plot : Plot
  data_map : DataMap

/-- The writer error taxonomy of the spec, section 7 (`GgsqlError::WriterError`
in the source). -/
inductive WriterError where
  | unsupportedFeature (detail : String)
  | missingSource (name : String)
  | missingColumn (name : String)
  | typeMismatch (column : String)
  | encodingFailure (detail : String)
deriving DecidableEq

/-- The five conceptual error kinds, abstracting over the message payload. -/
inductive ErrKind where
  | unsupportedFeatureK
  | missingSourceK
  | missingColumnK
  | typeMismatchK
  | encodingFailureK
deriving DecidableEq

/-- Kind of a writer error. -/
def WriterError.kind : WriterError → ErrKind
  | .unsupportedFeature _ => .unsupportedFeatureK
  | .missingSource _ => .missingSourceK
  | .missingColumn _ => .missingColumnK
  | .typeMismatch _ => .typeMismatchK
  | .encodingFailure _ => .encodingFailureK

/-- Kind of the error of a failed write result (`none` on success). -/
def resultKind (r : Except WriterError String) : Option ErrKind :=
  match r with
  | .ok _ => none
  | .error e => some e.kind

/-- The `Writer` trait of `src/writer/mod.rs`: the two required primitives
`write` and `validate`, plus an optional override of the provided `render`
(a Rust impl may supply its own `render` body; `none` means the default is
used). -/
structure Writer where
  write : Plot → DataMap → Except WriterError String
  validate : Plot → Except WriterError Unit
  renderOverride : Option (Prepared → Except WriterError String) := none

/-- `Writer::render` (src/writer/mod.rs lines 54-56): the default body
extracts the plot and data map from the `Prepared` object and delegates to
`write`; an overriding impl replaces the body. -/
def Writer.render (w : Writer) (p : Prepared) : Except WriterError String :=
  match w.renderOverride with
  | some f => f p
  | none => w.write p.plot p.data_map

/-! ## JSON values and canonical serialization (exemplar backend target) -/

/-- Modelled from the spec: a JSON value, the target representation of the
exemplar chart-grammar backend. -/
inductive JValue where
  | num (i : Int)
  | str (s : String)
  | bool (b : Bool)
  | arr (xs : List JValue)
  | obj (fields : List (String × JValue))

/-- Field lookup in a JSON object (first match; keys are unique in the
values the backend emits). -/
def JValue.getField (j : JValue) (k : String) : Option JValue :=
  match j with
  | .obj fs => (fs.find? (fun p => p.1 = k)).map (fun p => p.2)
  | _ => none

mutual

/-- Modelled from the spec: canonical JSON serialization with stable key
ordering (construction order), so identical input yields byte-identical
output. -/
def jsonToString : JValue → String
  | .num i => toString i
  | .str s => "\"" ++ s ++ "\""
  | .bool b => if b then "true" else "false"
  | .arr xs => "[" ++ jsonArrToString xs ++ "]"
  | .obj fs => "\x7b" ++ jsonObjToString fs ++ "\x7d"

/-- Serialize a JSON array body, comma-separated. -/
def jsonArrToString : List JValue → String
  | [] => ""
  | [x] => jsonToString x
  | x :: y :: xs => jsonToString x ++ "," ++ jsonArrToString (y :: xs)

/-- Serialize a JSON object body, comma-separated, keys in construction
order. -/
def jsonObjToString : List (String × JValue) → String
  | [] => ""
  | [(k, v)] => "\"" ++ k ++ "\":" ++ jsonToString v
  | (k, v) :: f :: fs =>
      "\"" ++ k ++ "\":" ++ jsonToString v ++ "," ++ jsonObjToString (f :: fs)

end

/-! ## Exemplar chart-grammar JSON backend (spec section 4.2) -/

/-- Modelled from the spec: the target grammar's mark vocabulary — the
translation of a layer's geometry kind into the grammar's mark name, `none`
when the kind has no mapping and is thus unsupported by this backend. -/
def markVocab : String → Option String
  | "point" => some "point"
  | "line" => some "line"
  | "bar" => some "bar"
  | "area" => some "area"
  | _ => none

/-- Modelled from the spec: whether a declared column type is representable
in the target encoding. -/
def representable : ColType → Bool
  | .blob => false
  | _ => true

/-- Modelled from the spec: the grammar's name for the encoding type of a
representable column type. -/
def encodeTypeName : ColType → String
  | .int => "quantitative"
  | _ => "nominal"

/-- Look up a column by name in a frame's schema. -/
def findColumn (f : DataFrame) (c : String) : Option Column :=
  f.columns.find? (fun col => col.name = c)

/-- Convert one cell value to JSON. -/
def valueToJson : Value → JValue
  | .int i => .num i
  | .str s => .str s
  | .bool b => .bool b

/-- Row `i` of a frame as a JSON object (column order preserved). -/
def frameRow (f : DataFrame) (i : Nat) : JValue :=
  .obj (f.columns.map (fun c => (c.name, valueToJson (c.values.getD i (.int 0)))))

/-- All rows of a frame as JSON objects. -/
def frameRows (f : DataFrame) : List JValue :=
  (List.range f.rowCount).map (frameRow f)

/-- Modelled from the spec: the fixed inlining threshold of the deterministic
inline-vs-reference policy. -/
def inlineThreshold : Nat := 5000

/-- Modelled from the spec: the data block of a layer — inline the frame's
rows when the row count is below the fixed threshold, otherwise reference
the named dataset. -/
def dataBlock (name : String) (f : DataFrame) : JValue :=
  if f.rowCount < inlineThreshold then .obj [("values", .arr (frameRows f))]
  else .obj [("name", .str name)]

/-- Modelled from the spec: build an encoding object from an aesthetic
mapping, verifying that each referenced column exists in the frame's schema
(fail with `MissingColumn` otherwise) and that its declared type is
representable in the target encoding (fail with `TypeMismatch` otherwise). -/
def buildEncoding (f : DataFrame) : List (String × String) → Except WriterError (List (String × JValue))
  | [] => .ok []
  | (ch, col) :: rest =>
    match findColumn f col with
    | none => .error (.missingColumn col)
    | some c =>
      if representable c.ctype then
        match buildEncoding f rest with
        | .error e => .error e
        | .ok fs => .ok ((ch, .obj [("field", .str col), ("type", .str (encodeTypeName c.ctype))]) :: fs)
      else .error (.typeMismatch col)

/-- Modelled from the spec: translate one layer — resolve its data-source
name against the provided map (fail with `MissingSource` if absent), build
the encoding object, translate the mark, and emit the mark+encoding+data
object. -/
def writeLayer (data : DataMap) (l : Layer) : Except WriterError JValue :=
  match List.lookup l.source data with
  | none => .error (.missingSource l.source)
  | some f =>
    match buildEncoding f l.mapping with
    | .error e => .error e
    | .ok enc =>
      match markVocab l.mark with
      | none => .error (.unsupportedFeature l.mark)
      | some m => .ok (.obj [("mark", .str m), ("encoding", .obj enc), ("data", dataBlock l.source f)])

/-- Translate the layers in order, stopping at the first error. -/
def writeLayers (data : DataMap) : List Layer → Except WriterError (List JValue)
  | [] => .ok []
  | l :: ls =>
    match writeLayer data l with
    | .error e => .error e
    | .ok j =>
      match writeLayers data ls with
      | .error e => .error e
      | .ok js => .ok (j :: js)

/-- Modelled from the spec: the exemplar backend's `write` at the JSON
level — translate every layer and assemble the top-level object. -/
def vlWriteJson (spec : Plot) (data : DataMap) : Except WriterError JValue :=
  match writeLayers data spec.layers with
  | .error e => .error e
  | .ok js => .ok (.obj [("layer", .arr js)])

/-- Modelled from the spec: the exemplar backend's `write` — assemble the
top-level JSON object and serialize it to a canonical string. -/
def vlWrite (spec : Plot) (data : DataMap) : Except WriterError String :=
  match vlWriteJson spec data with
  | .error e => .error e
  | .ok j => .ok (jsonToString j)

/-- Modelled from the spec: the exemplar backend's `validate` — walk each
layer and reject (with `UnsupportedFeature`) any whose geometry kind has no
mapping in the target grammar's vocabulary; no data access. -/
def validateLayers : List Layer → Except WriterError Unit
  | [] => .ok ()
  | l :: ls =>
    match markVocab l.mark with
    | none => .error (.unsupportedFeature l.mark)
    | some _ => validateLayers ls

/-- Modelled from the spec: the exemplar backend's `validate`. -/
def vlValidate (spec : Plot) : Except WriterError Unit :=
  validateLayers spec.layers

/-- Modelled from the spec: the exemplar chart-grammar JSON backend
(`VegaLiteWriter` in the source tree, feature-gated and not present under
`src/`), using the default `render`. -/
def vegaLiteWriter : Writer :=
  { write := vlWrite, validate := vlValidate, renderOverride := none }

/-! ## Concrete fixtures -/

/-- The frame of the spec's scenario: named "main", columns a=[1,2], b=[3,4]. -/
def scenarioFrame : DataFrame :=
  ⟨[⟨"a", .int, [.int 1, .int 2]⟩, ⟨"b", .int, [.int 3, .int 4]⟩]⟩

/-- The plot of the spec's scenario: one layer, mark point, x→"a", y→"b",
source "main". -/
def scenarioPlot : Plot := ⟨[⟨"point", "main", [("x", "a"), ("y", "b")]⟩]⟩

/-- The data map of the spec's scenario. -/
def scenarioData : DataMap := [("main", scenarioFrame)]

/-- The prepared bundle of the spec's scenario. -/
def scenarioPrepared : Prepared := ⟨scenarioPlot, scenarioData⟩

/-- The layer object the exemplar backend emits for the scenario. -/
def scenarioLayerJson : JValue :=
  .obj [("mark", .str "point"),
        ("encoding", .obj [("x", .obj [("field", .str "a"), ("type", .str "quantitative")]),
                           ("y", .obj [("field", .str "b"), ("type", .str "quantitative")])]),
        ("data", .obj [("values", .arr [.obj [("a", .num 1), ("b", .num 3)],
                                        .obj [("a", .num 2), ("b", .num 4)]])])]

/-- A frame with columns c2, c3 (and no "c1", "zz"). -/
def cexFrame : DataFrame := ⟨[⟨"c2", .int, []⟩, ⟨"c3", .int, []⟩]⟩

/-- Two-layer plot: the first layer maps x to the absent column "c1" of the
present source "t"; the second layer references the absent source "s1". -/
def cex4Plot : Plot := ⟨[⟨"point", "t", [("x", "c1")]⟩, ⟨"point", "s1", []⟩]⟩

/-- Data map holding only "t". -/
def cex4Data : DataMap := [("t", cexFrame)]

/-- Two-layer plot: the first layer references the absent source "s"; the
second layer maps x to the absent column "c1" of the present source "t". -/
def cex5Plot : Plot := ⟨[⟨"point", "s", []⟩, ⟨"point", "t", [("x", "c1")]⟩]⟩

/-- Data map holding only "t". -/
def cex5Data : DataMap := [("t", cexFrame)]

/-- A structurally valid plot whose only layer maps x to a column absent
from its (present) source frame. -/
def stabPlot : Plot := ⟨[⟨"point", "t", [("x", "zz")]⟩]⟩

/-- Data map for `stabPlot` with the referenced source present. -/
def stabData : DataMap := [("t", cexFrame)]

/-- A plot using a mark outside the exemplar grammar's vocabulary, so
`vlValidate` rejects it. -/
def badPlot : Plot := ⟨[⟨"weird3d", "s", []⟩]⟩

/-- A prepared bundle around `badPlot`. -/
def badPrepared : Prepared := ⟨badPlot, []⟩

/-- A writer with the exemplar's `write` but a `validate` that rejects
every spec; used to show the default `render` never consults `validate`. -/
def rejectAllWriter : Writer :=
  { write := vlWrite,
    validate := fun _ => .error (.unsupportedFeature "rejected"),
    renderOverride := none }

/-- The data map satisfies the spec's source requirements: every layer's
data-source reference names an entry present in the map. -/
def sourcesPresent (spec : Plot) (data : DataMap) : Bool :=
  spec.layers.all (fun l => (List.lookup l.source data).isSome)

/-- The two data maps agree on every source name the spec's layers
reference (they may differ on entries the spec never uses). -/
def agreesOnSources (spec : Plot) (d d' : DataMap) : Bool :=
  spec.layers.all (fun l => decide (List.lookup l.source d' = List.lookup l.source d))

/-- Every entry of the mapping resolves to an existing column of the frame
whose declared type is representable. -/
def mappingPrefixOk (f : DataFrame) (m : List (String × String)) : Bool :=
  m.all (fun p =>
    match findColumn f p.2 with
    | some col => representable col.ctype
    | none => false)

/-! ## Helper lemmas -/

/-- An encoding-construction failure is a missing column or a type
mismatch, never any other kind. -/
theorem buildEncoding_error_kind (f : DataFrame) (m : List (String × String)) (e : WriterError) :
    buildEncoding f m = .error e →
    e.kind = ErrKind.missingColumnK ∨ e.kind = ErrKind.typeMismatchK := by
  induction m with
  | nil => intro h; simp [buildEncoding] at h
  | cons p rest ih =>
    intro h
    obtain ⟨ch, col⟩ := p
    unfold buildEncoding at h
    split at h
    · injection h with h2
      left; rw [← h2]; rfl
    · split at h
      · split at h
        · rename_i e' he
          injection h with h2
          rw [h2] at he
          exact ih he
        · simp at h
      · injection h with h2
        right; rw [← h2]; rfl

/-- If layer-walk validation succeeds, every layer's mark is in the
grammar's vocabulary. -/
theorem validateLayers_ok_mark (ls : List Layer) :
    validateLayers ls = .ok () → ∀ l ∈ ls, (markVocab l.mark).isSome := by
  induction ls with
  | nil => intro _ l hl; cases hl
  | cons a as ih =>
    intro h l hl
    unfold validateLayers at h
    split at h
    · simp at h
    · rename_i g hm
      rcases List.mem_cons.mp hl with rfl | hl'
      · simp [hm]
      · exact ih h l hl'

/-- A layer-walk validation failure is always an unsupported-feature
error. -/
theorem validateLayers_error_shape (ls : List Layer) (e : WriterError) :
    validateLayers ls = .error e → ∃ d, e = .unsupportedFeature d := by
  induction ls with
  | nil => intro h; simp [validateLayers] at h
  | cons a as ih =>
    intro h
    unfold validateLayers at h
    split at h
    · injection h with h2
      exact ⟨a.mark, h2.symm⟩
    · exact ih h

/-- If a layer's mark is in the vocabulary, a failure of `writeLayer` on it
is a missing source, a missing column, or a type mismatch. -/
theorem writeLayer_error_kind (data : DataMap) (l : Layer) (e : WriterError)
    (hm : (markVocab l.mark).isSome) :
    writeLayer data l = .error e →
    e.kind = ErrKind.missingSourceK ∨ e.kind = ErrKind.missingColumnK ∨
      e.kind = ErrKind.typeMismatchK := by
  intro h
  unfold writeLayer at h
  split at h
  · injection h with h2
    left; rw [← h2]; rfl
  · rename_i f hf
    split at h
    · rename_i e' he
      injection h with h2
      rw [h2] at he
      rcases buildEncoding_error_kind f l.mapping e he with h3 | h3
      · right; left; exact h3
      · right; right; exact h3
    · split at h
      · rename_i hmv
        rw [hmv] at hm
        simp at hm
      · simp at h

/-- If every layer's mark is in the vocabulary, a failure of the layer walk
of `write` is a missing source, a missing column, or a type mismatch. -/
theorem writeLayers_error_kind (data : DataMap) (ls : List Layer) (e : WriterError) :
    (∀ l ∈ ls, (markVocab l.mark).isSome) → writeLayers data ls = .error e →
    e.kind = ErrKind.missingSourceK ∨ e.kind = ErrKind.missingColumnK ∨
      e.kind = ErrKind.typeMismatchK := by
  induction ls with
  | nil => intro _ h; simp [writeLayers] at h
  | cons a as ih =>
    intro hm h
    unfold writeLayers at h
    split at h
    · rename_i e' he
      injection h with h2
      rw [h2] at he
      exact writeLayer_error_kind data a e (hm a (by simp)) he
    · split at h
      · rename_i e' he
        injection h with h2
        rw [h2] at he
        exact ih (fun l hl => hm l (by simp [hl])) he
      · simp at h

/-- `writeLayer` reads the data map only through the lookup of the layer's
source name. -/
theorem writeLayer_congr (d d' : DataMap) (l : Layer)
    (h : List.lookup l.source d' = List.lookup l.source d) :
    writeLayer d' l = writeLayer d l := by
  unfold writeLayer
  rw [h]

/-- The layer walk of `write` reads the data map only through the lookups
of the layers' source names. -/
theorem writeLayers_congr (d d' : DataMap) (ls : List Layer) :
    (∀ l ∈ ls, List.lookup l.source d' = List.lookup l.source d) →
    writeLayers d' ls = writeLayers d ls := by
  induction ls with
  | nil => intro _; rfl
  | cons a as ih =>
    intro h
    unfold writeLayers
    rw [writeLayer_congr d d' a (h a (by simp)), ih (fun l hl => h l (by simp [hl]))]

/-- A missing-source failure of the layer walk pinpoints a layer whose
source name is absent from the data map. -/
theorem writeLayers_missingSource_absent (d : DataMap) (ls : List Layer) (e : WriterError) :
    writeLayers d ls = .error e → e.kind = ErrKind.missingSourceK →
    ∃ l ∈ ls, List.lookup l.source d = none := by
  induction ls with
  | nil => intro h _; simp [writeLayers] at h
  | cons a as ih =>
    intro h hk
    unfold writeLayers at h
    split at h
    · rename_i e' he
      injection h with h2
      rw [h2] at he
      unfold writeLayer at he
      split at he
      · rename_i hf
        exact ⟨a, by simp, hf⟩
      · rename_i f hf
        split at he
        · rename_i e2 he2
          injection he with h3
          rw [h3] at he2
          rcases buildEncoding_error_kind f a.mapping e he2 with h4 | h4 <;>
            rw [h4] at hk <;> simp at hk
        · split at he
          · injection he with h3
            rw [← h3] at hk
            simp [WriterError.kind] at hk
          · simp at he
    · split at h
      · rename_i e' he
        injection h with h2
        rw [h2] at he
        obtain ⟨l, hl, hnone⟩ := ih he hk
        exact ⟨l, by simp [hl], hnone⟩
      · simp at h

/-- If the layer walk succeeds on a prefix and `writeLayer` fails on the
next layer, the walk over the whole list fails with that error. -/
theorem writeLayers_append_error (d : DataMap) (ls₁ ls₂ : List Layer) (l : Layer)
    (e : WriterError) :
    ∀ js : List JValue, writeLayers d ls₁ = .ok js → writeLayer d l = .error e →
    writeLayers d (ls₁ ++ l :: ls₂) = .error e := by
  induction ls₁ with
  | nil =>
    intro js _ h2
    simp only [List.nil_append]
    unfold writeLayers
    rw [h2]
  | cons a as ih =>
    intro js h1 h2
    simp only [List.cons_append]
    unfold writeLayers at h1 ⊢
    split at h1
    · simp at h1
    · rename_i j hj
      split at h1
      · simp at h1
      · rename_i js' hjs
        rw [ih js' hjs h2]

/-- If every mapping entry before `(ch, c)` resolves to an existing,
representable column and `c` is absent from the frame's schema, building
the encoding fails with exactly `MissingColumn c`. -/
theorem buildEncoding_append_missing (f : DataFrame) (m₁ m₂ : List (String × String))
    (ch c : String) :
    (∀ p ∈ m₁, ∃ col, findColumn f p.2 = some col ∧ representable col.ctype = true) →
    findColumn f c = none →
    buildEncoding f (m₁ ++ (ch, c) :: m₂) = .error (.missingColumn c) := by
  induction m₁ with
  | nil =>
    intro _ habs
    simp only [List.nil_append]
    unfold buildEncoding
    rw [habs]
  | cons p rest ih =>
    intro hok habs
    obtain ⟨pch, pcol⟩ := p
    simp only [List.cons_append]
    unfold buildEncoding
    obtain ⟨col, hcol, hrep⟩ := hok (pch, pcol) (by simp)
    simp only [hcol, hrep, eq_self_iff_true, if_true,
      ih (fun q hq => hok q (by simp [hq])) habs]

/-! ## Claims -/

/-- Claim C1: for every writer that does not override the default `render`
and every `Prepared` bundle, `render prepared` returns exactly
`write prepared.plot() prepared.data_map()` — the same Ok string
byte-for-byte on success, and the same unchanged error on failure. -/
theorem render_eq_write_compose (w : Writer) (p : Prepared)
    (h : w.renderOverride = none) :
    w.render p = w.write p.plot p.data_map := by
  unfold Writer.render
  rw [h]

/-- Witness for C1: the exemplar writer (which keeps the default `render`)
on the scenario bundle. -/
theorem render_eq_write_compose_witness :
    vegaLiteWriter.renderOverride = none ∧
    vegaLiteWriter.render scenarioPrepared =
      vegaLiteWriter.write scenarioPrepared.plot scenarioPrepared.data_map :=
  ⟨rfl, render_eq_write_compose vegaLiteWriter scenarioPrepared rfl⟩

/-- Claim C3: `write` is a deterministic function of its arguments — two
calls with equal inputs produce byte-identical output (every writer's
`write` in this embedding, the exemplar's included, is a pure function). -/
theorem write_deterministic (w : Writer) (s₁ s₂ : Plot) (d₁ d₂ : DataMap)
    (hs : s₁ = s₂) (hd : d₁ = d₂) :
    w.write s₁ d₁ = w.write s₂ d₂ := by
  rw [hs, hd]

/-- Witness for C3: the exemplar writer on the scenario inputs. -/
theorem write_deterministic_witness :
    scenarioPlot = scenarioPlot ∧ scenarioData = scenarioData ∧
    vegaLiteWriter.write scenarioPlot scenarioData =
      vegaLiteWriter.write scenarioPlot scenarioData :=
  ⟨rfl, rfl, write_deterministic vegaLiteWriter scenarioPlot scenarioPlot
    scenarioData scenarioData rfl rfl⟩

/-- Claim C6: every operation of the Writer contract is a pure
transformation — its result depends only on its arguments, and neither the
writer, the plot, the data map, nor the prepared bundle is changed by a
call (in this embedding of the trait all three operations are total
functions over immutable values). -/
theorem writer_ops_pure (w : Writer) (s s' : Plot) (d d' : DataMap)
    (p p' : Prepared) (hs : s = s') (hd : d = d') (hp : p = p') :
    w.write s d = w.write s' d' ∧ w.validate s = w.validate s' ∧
    w.render p = w.render p' := by
  subst hs
  subst hd
  subst hp
  exact ⟨rfl, rfl, rfl⟩

/-- Witness for C6: the exemplar writer on the scenario inputs. -/
theorem writer_ops_pure_witness :
    scenarioPlot = scenarioPlot ∧ scenarioData = scenarioData ∧
    scenarioPrepared = scenarioPrepared ∧
    (vegaLiteWriter.write scenarioPlot scenarioData =
        vegaLiteWriter.write scenarioPlot scenarioData ∧
      vegaLiteWriter.validate scenarioPlot = vegaLiteWriter.validate scenarioPlot ∧
      vegaLiteWriter.render scenarioPrepared = vegaLiteWriter.render scenarioPrepared) :=
  ⟨rfl, rfl, rfl, writer_ops_pure vegaLiteWriter scenarioPlot scenarioPlot
    scenarioData scenarioData scenarioPrepared scenarioPrepared rfl rfl rfl⟩

/-- Claim C8: every primitive operation terminates by returning a `Result`
value — `write` and `validate` always return either an Ok value or an
error, and the default `render` surfaces any error produced by `write`
unchanged. -/
theorem primitives_return_results (w : Writer) (p : Prepared) (s : Plot)
    (e : WriterError) (hov : w.renderOverride = none) :
    ((∃ out, w.write p.plot p.data_map = .ok out) ∨
      (∃ e2, w.write p.plot p.data_map = .error e2)) ∧
    (w.validate s = .ok () ∨ (∃ e2, w.validate s = .error e2)) ∧
    (w.write p.plot p.data_map = .error e → w.render p = .error e) := by
  refine ⟨?_, ?_, ?_⟩
  · cases hw : w.write p.plot p.data_map with
    | ok o => exact Or.inl ⟨o, rfl⟩
    | error e2 => exact Or.inr ⟨e2, rfl⟩
  · cases hv : w.validate s with
    | ok u => cases u; exact Or.inl rfl
    | error e2 => exact Or.inr ⟨e2, rfl⟩
  · intro hw
    unfold Writer.render
    rw [hov]
    exact hw

/-- Witness for C8: the exemplar writer on a bundle on which `write` fails,
checking the error really is surfaced by `render`. -/
theorem primitives_return_results_witness :
    vegaLiteWriter.renderOverride = none ∧
    (((∃ out, vegaLiteWriter.write badPrepared.plot badPrepared.data_map = .ok out) ∨
        (∃ e2, vegaLiteWriter.write badPrepared.plot badPrepared.data_map = .error e2)) ∧
      (vegaLiteWriter.validate scenarioPlot = .ok () ∨
        (∃ e2, vegaLiteWriter.validate scenarioPlot = .error e2)) ∧
      (vegaLiteWriter.write badPrepared.plot badPrepared.data_map =
          .error (.missingSource "s") →
        vegaLiteWriter.render badPrepared = .error (.missingSource "s"))) :=
  ⟨rfl, primitives_return_results vegaLiteWriter badPrepared scenarioPlot
    (.missingSource "s") rfl⟩

/-- Claim C10: the default `render` never invokes `validate` — its result
is independent of the writer's `validate` component and is exactly the
result of `write`, so a spec that `validate` would reject is still passed
to `write`, whose own error (if any) is what the caller observes. -/
theorem render_ignores_validate (w₁ w₂ : Writer) (p : Prepared)
    (h₁ : w₁.renderOverride = none) (h₂ : w₂.renderOverride = none)
    (hw : w₁.write = w₂.write) :
    w₁.render p = w₂.render p ∧ w₁.render p = w₁.write p.plot p.data_map := by
  unfold Writer.render
  rw [h₁, h₂, hw]
  exact ⟨rfl, rfl⟩

/-- Witness for C10: the exemplar writer and a writer with the same `write`
but a `validate` rejecting everything agree on `render` of a bundle whose
plot `vlValidate` itself rejects, and `render` returns `write`'s result. -/
theorem render_ignores_validate_witness :
    vegaLiteWriter.renderOverride = none ∧
    rejectAllWriter.renderOverride = none ∧
    vegaLiteWriter.write = rejectAllWriter.write ∧
    vlValidate badPrepared.plot = .error (.unsupportedFeature "weird3d") ∧
    (vegaLiteWriter.render badPrepared = rejectAllWriter.render badPrepared ∧
      vegaLiteWriter.render badPrepared =
        vegaLiteWriter.write badPrepared.plot badPrepared.data_map) :=
  ⟨rfl, rfl, rfl, rfl,
    render_ignores_validate vegaLiteWriter rejectAllWriter badPrepared rfl rfl rfl⟩

/-- Claim C2: if `validate spec` succeeds, then for every data map
satisfying the spec's source requirements, `write spec data` does not fail
with the `UnsupportedFeature` kind; any remaining failure arises only from
the data (missing source, missing column, type mismatch). -/
theorem validate_stability (spec : Plot) (data : DataMap) (e : WriterError)
    (hv : vlValidate spec = .ok ())
    (_hd : sourcesPresent spec data = true)
    (hw : vlWrite spec data = .error e) :
    e.kind ≠ ErrKind.unsupportedFeatureK ∧
    (e.kind = ErrKind.missingSourceK ∨ e.kind = ErrKind.missingColumnK ∨
      e.kind = ErrKind.typeMismatchK) := by
  unfold vlWrite at hw
  split at hw
  · rename_i e' he
    injection hw with h2
    rw [h2] at he
    unfold vlWriteJson at he
    split at he
    · rename_i e2 he2
      injection he with h3
      rw [h3] at he2
      have hkinds := writeLayers_error_kind data spec.layers e
        (validateLayers_ok_mark spec.layers hv) he2
      refine ⟨?_, hkinds⟩
      rcases hkinds with h4 | h4 | h4 <;> rw [h4] <;> simp
    · simp at he
  · simp at hw

/-- Witness for C2: a structurally valid spec over present sources whose
`write` fails, with a missing-column error, never an unsupported-feature
one. -/
theorem validate_stability_witness :
    vlValidate stabPlot = .ok () ∧
    sourcesPresent stabPlot stabData = true ∧
    vlWrite stabPlot stabData = .error (.missingColumn "zz") ∧
    ((WriterError.missingColumn "zz").kind ≠ ErrKind.unsupportedFeatureK ∧
      ((WriterError.missingColumn "zz").kind = ErrKind.missingSourceK ∨
        (WriterError.missingColumn "zz").kind = ErrKind.missingColumnK ∨
        (WriterError.missingColumn "zz").kind = ErrKind.typeMismatchK)) :=
  ⟨rfl, by decide, rfl,
    validate_stability stabPlot stabData (.missingColumn "zz") rfl (by decide) rfl⟩

/-- Counterexample to claim C4 as stated: `cex4Plot` has a layer
referencing source "s1", which is absent from `cex4Data`, yet `write`
returns `MissingColumn` (the first layer's missing column is detected
first), not `MissingSource`. -/
theorem missing_source_claim_counterexample :
    (Layer.mk "point" "s1" []) ∈ cex4Plot.layers ∧
    List.lookup "s1" cex4Data = none ∧
    vlWrite cex4Plot cex4Data = .error (.missingColumn "c1") ∧
    resultKind (vlWrite cex4Plot cex4Data) ≠ some ErrKind.missingSourceK := by
  refine ⟨by decide, rfl, rfl, by decide⟩

/-- Claim C4 (amended): if the layers before a layer `l` are all written
successfully and `l`'s data-source name is absent from the data map, then
`write` returns `MissingSource`; and `validate`, which receives no data,
never returns the `MissingSource` kind. -/
theorem missing_source_detection (ls₁ ls₂ : List Layer) (l : Layer)
    (data : DataMap) (js : List JValue) (spec : Plot) (e : WriterError)
    (hprev : writeLayers data ls₁ = .ok js)
    (habs : List.lookup l.source data = none) :
    vlWrite (Plot.mk (ls₁ ++ l :: ls₂)) data = .error (.missingSource l.source) ∧
    (vlValidate spec = .error e → e.kind ≠ ErrKind.missingSourceK) := by
  constructor
  · have hl : writeLayer data l = .error (.missingSource l.source) := by
      unfold writeLayer
      rw [habs]
    have hls := writeLayers_append_error data ls₁ ls₂ l (.missingSource l.source)
      js hprev hl
    unfold vlWrite vlWriteJson
    rw [hls]
  · intro hv
    obtain ⟨d, rfl⟩ := validateLayers_error_shape spec.layers e hv
    simp [WriterError.kind]

/-- Witness for C4 (amended): a single-layer plot referencing "s1" against
the empty data map, and a plot `vlValidate` rejects. -/
theorem missing_source_detection_witness :
    writeLayers ([] : DataMap) [] = .ok ([] : List JValue) ∧
    List.lookup "s1" ([] : DataMap) = none ∧
    (vlWrite (Plot.mk ([] ++ Layer.mk "point" "s1" [] :: [])) [] =
        .error (.missingSource "s1") ∧
      (vlValidate badPlot = .error (.unsupportedFeature "weird3d") →
        (WriterError.unsupportedFeature "weird3d").kind ≠ ErrKind.missingSourceK)) :=
  ⟨rfl, rfl,
    missing_source_detection [] [] (Layer.mk "point" "s1" []) [] [] badPlot
      (.unsupportedFeature "weird3d") rfl rfl⟩

/-- Counterexample to claim C5 as stated: the second layer of `cex5Plot`
maps x to column "c1", absent from the resolved frame of its (present)
source "t", yet `write` returns `MissingSource` (the first layer's missing
source is detected first), not `MissingColumn`. -/
theorem missing_column_claim_counterexample :
    List.lookup "t" cex5Data = some cexFrame ∧
    findColumn cexFrame "c1" = none ∧
    (Layer.mk "point" "t" [("x", "c1")]) ∈ cex5Plot.layers ∧
    vlWrite cex5Plot cex5Data = .error (.missingSource "s") ∧
    resultKind (vlWrite cex5Plot cex5Data) ≠ some ErrKind.missingColumnK := by
  refine ⟨rfl, rfl, by decide, rfl, by decide⟩

/-- Claim C5 (amended): if the layers before a layer `l` are all written
successfully, `l`'s source resolves to frame `f`, every mapping entry
before `(ch, c)` resolves to an existing representable column, and `c` is
absent from `f`'s schema, then `write` returns `MissingColumn c`. -/
theorem missing_column_detection (ls₁ ls₂ : List Layer) (l : Layer)
    (data : DataMap) (js : List JValue) (f : DataFrame)
    (m₁ m₂ : List (String × String)) (ch c : String)
    (hprev : writeLayers data ls₁ = .ok js)
    (hsrc : List.lookup l.source data = some f)
    (hmap : l.mapping = m₁ ++ (ch, c) :: m₂)
    (hok : mappingPrefixOk f m₁ = true)
    (habs : findColumn f c = none) :
    vlWrite (Plot.mk (ls₁ ++ l :: ls₂)) data = .error (.missingColumn c) := by
  have hok' : ∀ p ∈ m₁, ∃ col, findColumn f p.2 = some col ∧
      representable col.ctype = true := by
    intro p hp
    have h2 := List.all_eq_true.mp hok p hp
    cases hcol : findColumn f p.2 with
    | none => rw [hcol] at h2; simp at h2
    | some col => rw [hcol] at h2; exact ⟨col, rfl, h2⟩
  have henc : buildEncoding f l.mapping = .error (.missingColumn c) := by
    rw [hmap]
    exact buildEncoding_append_missing f m₁ m₂ ch c hok' habs
  have hl : writeLayer data l = .error (.missingColumn c) := by
    unfold writeLayer
    rw [hsrc]
    simp only [henc]
  have hls := writeLayers_append_error data ls₁ ls₂ l (.missingColumn c) js hprev hl
  unfold vlWrite vlWriteJson
  rw [hls]

/-- Witness for C5 (amended): a single-layer plot whose layer maps x to the
absent column "c1" of the present source "t". -/
theorem missing_column_detection_witness :
    writeLayers cex4Data [] = .ok ([] : List JValue) ∧
    List.lookup "t" cex4Data = some cexFrame ∧
    (Layer.mk "point" "t" [("x", "c1")]).mapping = [] ++ ("x", "c1") :: [] ∧
    mappingPrefixOk cexFrame [] = true ∧
    findColumn cexFrame "c1" = none ∧
    vlWrite (Plot.mk ([] ++ Layer.mk "point" "t" [("x", "c1")] :: [])) cex4Data =
      .error (.missingColumn "c1") :=
  ⟨rfl, rfl, rfl, rfl, rfl,
    missing_column_detection [] [] (Layer.mk "point" "t" [("x", "c1")]) cex4Data
      [] cexFrame [] [] "x" "c1" rfl rfl rfl rfl rfl⟩

/-- Claim C7: `write` does not fail merely because the data map contains
entries the spec never uses — its result only depends on the entries the
spec's layers reference — and it fails for a source-related reason only
when a referenced entry is absent. -/
theorem write_unused_entries (spec : Plot) (d d' : DataMap) (e : WriterError)
    (h : agreesOnSources spec d d' = true) :
    vlWrite spec d' = vlWrite spec d ∧
    (vlWrite spec d = .error e → e.kind = ErrKind.missingSourceK →
      ∃ l ∈ spec.layers, List.lookup l.source d = none) := by
  constructor
  · have h' : ∀ l ∈ spec.layers,
        List.lookup l.source d' = List.lookup l.source d := by
      intro l hl
      exact of_decide_eq_true (List.all_eq_true.mp h l hl)
    unfold vlWrite vlWriteJson
    rw [writeLayers_congr d d' spec.layers h']
  · intro hw hk
    unfold vlWrite at hw
    split at hw
    · rename_i e' he
      injection hw with h2
      rw [h2] at he
      unfold vlWriteJson at he
      split at he
      · rename_i e2 he2
        injection he with h3
        rw [h3] at he2
        exact writeLayers_missingSource_absent d spec.layers e he2 hk
      · simp at he
    · simp at hw

/-- Witness for C7: the scenario write is unchanged by an extra unused
entry in the data map. -/
theorem write_unused_entries_witness :
    agreesOnSources scenarioPlot scenarioData
        (scenarioData ++ [("extra", cexFrame)]) = true ∧
    (vlWrite scenarioPlot (scenarioData ++ [("extra", cexFrame)]) =
        vlWrite scenarioPlot scenarioData ∧
      (vlWrite scenarioPlot scenarioData = .error (.missingSource "x") →
        (WriterError.missingSource "x").kind = ErrKind.missingSourceK →
        ∃ l ∈ scenarioPlot.layers, List.lookup l.source scenarioData = none)) :=
  ⟨by decide,
    write_unused_entries scenarioPlot scenarioData
      (scenarioData ++ [("extra", cexFrame)]) (.missingSource "x") (by decide)⟩

/-- Claim C9: the exemplar backend renders the spec's scenario — one layer,
mark point, x→"a", y→"b", frame "main" with a=[1,2], b=[3,4] — to a JSON
object whose layer encoding names field "a" for channel x and "b" for
channel y, and whose data block inlines the rows (the row count 2 is below
the inlining threshold). -/
theorem scenario_vegalite_output :
    vlWriteJson scenarioPlot scenarioData = .ok (.obj [("layer", .arr [scenarioLayerJson])]) ∧
    ((scenarioLayerJson.getField "encoding").bind
        (fun enc => (enc.getField "x").bind (fun x => x.getField "field"))) =
      some (.str "a") ∧
    ((scenarioLayerJson.getField "encoding").bind
        (fun enc => (enc.getField "y").bind (fun y => y.getField "field"))) =
      some (.str "b") ∧
    scenarioFrame.rowCount < inlineThreshold ∧
    scenarioLayerJson.getField "data" =
      some (.obj [("values", .arr [.obj [("a", .num 1), ("b", .num 3)],
                                   .obj [("a", .num 2), ("b", .num 4)]])]) :=
  ⟨rfl, rfl, rfl, by decide, rfl⟩

end Ggsql
